import Mathlib

/-!
# Verification of the OCILIB reference / enqueue layer

Shallow embedding of `src/ocilib/src/ref.c` (the `OCI_Ref` lifecycle functions and
the `OCI_Enqueue` functions appended to that file) and of the lifecycle contracts
stated for the C++ proxy layer declared in `src/ocilib/include/ocilib.hpp`.

Native Oracle client calls (`OCIObjectPin`, `OCIRefAssign`, `OCIAQEnq`, ...) are
opaque to the library: each call's success/failure outcome is a parameter of the
embedded function, and every native invocation made through the `OCI_CALL2`
translator macro is recorded in an event trace together with its outcome, so that
theorems can speak about which native calls were made and whether they succeeded.

Pointers are embedded as `Option`: a `none` argument is a NULL pointer.  A result
of `none` for a whole operation marks a NULL-pointer dereference inside the C code
(undefined behaviour); every theorem about post-states is conditional on the
operation actually returning.
-/

namespace Ocilib

/-- Handle allocation state of a library object, `OCI_OBJECT_*` in the C sources.
`allocated` objects were created by the application and own their native handle;
`fetchedClean` objects were produced by a parent fetch and must not free the
native handle themselves; `fetchedDirty` marks a fetched object whose wrapper
structure may be reclaimed while the native handle release is left to the
parent's teardown. -/
inductive HState
  | allocated
  | fetchedClean
  | fetchedDirty
deriving DecidableEq

/-- The dependent `OCI_Object` produced by pinning a ref: its native object handle
and its allocation state (`obj->handle`, `obj->hstate`). -/
structure OCIObject where
  handle : Nat
  hstate : HState
deriving DecidableEq

/-- The `OCI_Ref` structure from `ocilib_types.h` as used by `ref.c`: the native
`OCIRef *` handle, the schema / type information (`ref->nty`, embedded as an
identifier), the dependent pinned object (`ref->obj`, NULL when absent), the
`ref->pinned` flag and the handle state `ref->hstate`. -/
structure OCIRef where
  handle : Nat
  nty : Nat
  obj : Option OCIObject
  pinned : Bool
  hstate : HState
deriving DecidableEq

/-- The native entry points invoked through the `OCI_CALL2` translator macro in
the embedded fragment of the library. -/
inductive NativeFn
  | objectNew
  | objectUnpin
  | objectPin
  | refAssign
  | refToHex
  | aqEnq
  | attrGet
  | attrSet
  | rawAssignBytes
deriving DecidableEq

/-- Observable effects of an embedded operation.  `native fn ok` is an invocation
of a native entry point through `OCI_CALL2`, with its reported outcome;
`objectFree st` is a call to `OCI_ObjectFree` on the dependent object, recording
the object's `hstate` at the moment of the call; `ociObjectFree h` is the native
release `OCI_OCIObjectFree` of the ref's own handle; `refClear` is `OCIRefClear`;
`alloc` is a structure allocation via `OCI_MemAlloc`; `freeStruct` is the
`OCI_FREE` of the wrapper structure. -/
inductive Event
  | native (fn : NativeFn) (ok : Bool)
  | objectFree (st : HState)
  | ociObjectFree (h : Nat)
  | refClear
  | alloc
  | freeStruct
deriving DecidableEq

/-- An event is a native call through the translator that reported failure. -/
def Event.isFailedNative : Event → Bool
  | .native _ ok => !ok
  | _ => false

/-- `OCI_RefUnpin` (ref.c, lines 147-173) on a non-NULL ref.  If the ref is
pinned, `OCIObjectUnpin` is invoked through `OCI_CALL2` on `ref->obj->handle`
(dereferencing `ref->obj`: if `obj` is NULL this is undefined behaviour, embedded
as `none`) and the pinned flag is cleared regardless of the call's outcome.  Then,
if a dependent object is present, its `hstate` is set to `OCI_OBJECT_FETCHED_DIRTY`
before it is handed to `OCI_ObjectFree`, and `ref->obj` is reset to NULL. -/
def refUnpinCore (unpinOk : Bool) (r : OCIRef) : Option (Bool × OCIRef × List Event) :=
  match r.pinned, r.obj with
  | true, none =>
      none
  | true, some _ =>
      some (unpinOk, { r with pinned := false, obj := none },
            [.native .objectUnpin unpinOk, .objectFree .fetchedDirty])
  | false, some _ =>
      some (true, { r with obj := none }, [.objectFree .fetchedDirty])
  | false, none =>
      some (true, r, [])

/-- `OCI_RefUnpin` including the `OCI_CHECK(ref == NULL, FALSE)` guard. -/
def OCI_RefUnpin (unpinOk : Bool) : Option OCIRef → Option (Bool × Option OCIRef × List Event)
  | none => some (false, none, [])
  | some r => (refUnpinCore unpinOk r).map fun x => (x.1, some x.2.1, x.2.2)

/-- `OCI_ObjectInit` is not among these sources (it lives in `object.c`).
Modelled from the spec: initialising the dependent object wrapper performs native
work through the translator and either yields a fully formed object or fails,
reporting through the error state and yielding NULL.  The outcome is the
`objInit` parameter of `refPinCore`. -/
def objectInitOutcome (objInit : Option OCIObject) : Option OCIObject := objInit

/-- `OCI_RefPin` (ref.c, lines 106-141) on a non-NULL ref: first `OCI_RefUnpin`
is run with its boolean result discarded, then `OCIObjectPin` is invoked through
`OCI_CALL2`; on native success the dependent object is built by `OCI_ObjectInit`
(outcome `objInit`), and only if that yields an object is `ref->pinned` set. -/
def refPinCore (unpinOk pinOk : Bool) (objInit : Option OCIObject) (r : OCIRef) :
    Option (Bool × OCIRef × List Event) :=
  match refUnpinCore unpinOk r with
  | none => none
  | some (_, r1, evs) =>
      let evs := evs ++ [Event.native .objectPin pinOk]
      if pinOk then
        match objectInitOutcome objInit with
        | some o => some (true, { r1 with obj := some o, pinned := true }, evs)
        | none => some (false, { r1 with obj := none }, evs)
      else
        some (false, r1, evs)

/-- `OCI_RefPin` including the `OCI_CHECK(ref == NULL, FALSE)` guard. -/
def OCI_RefPin (unpinOk pinOk : Bool) (objInit : Option OCIObject) :
    Option OCIRef → Option (Bool × Option OCIRef × List Event)
  | none => some (false, none, [])
  | some r => (refPinCore unpinOk pinOk objInit r).map fun x => (x.1, some x.2.1, x.2.2)

/-- `OCI_RefFree` (ref.c, lines 203-222).  The NULL check `OCI_CHECK_PTR` and the
`OCI_CHECK_OBJECT_FETCHED` guard come from `ocilib_checks.h`, which is not among
these sources; modelled from the spec: a NULL ref fails fast returning FALSE, and
a ref whose `hstate` is `OCI_OBJECT_FETCHED_CLEAN` makes the call return FALSE
before anything is unpinned or freed, deferring release to the parent's teardown.
Otherwise the ref is unpinned, the native handle is released through
`OCI_OCIObjectFree` exactly when `hstate` is `OCI_OBJECT_ALLOCATED`, and the
structure itself is freed. -/
def OCI_RefFree (unpinOk : Bool) : Option OCIRef → Option (Bool × List Event)
  | none => some (false, [])
  | some r =>
      if r.hstate = HState.fetchedClean then
        some (false, [])
      else
        match refUnpinCore unpinOk r with
        | none => none
        | some (_, r1, evs) =>
            let evs :=
              if r1.hstate = HState.allocated then evs ++ [Event.ociObjectFree r.handle]
              else evs
            some (true, evs ++ [Event.freeStruct])

/-- `OCI_RefIsNull` (ref.c, lines 289-296): NULL ref yields TRUE via
`OCI_CHECK_PTR`, otherwise the native `OCIRefIsNull` verdict (parameter
`isNullNative`) is returned. -/
def OCI_RefIsNull (isNullNative : Bool) : Option OCIRef → Bool
  | none => true
  | some _ => isNullNative

/-- `OCI_RefGetObject` (ref.c, lines 228-244): NULL or SQL-null refs yield NULL;
otherwise the ref is pinned and `ref->obj` is returned (which is NULL again if
the pin failed). -/
def OCI_RefGetObject (isNullNative unpinOk pinOk : Bool) (objInit : Option OCIObject) :
    Option OCIRef → Option (Option OCIObject × Option OCIRef × List Event)
  | none => some (none, none, [])
  | some r =>
      if OCI_RefIsNull isNullNative (some r) then
        some (none, some r, [])
      else
        match refPinCore unpinOk pinOk objInit r with
        | none => none
        | some (_, r1, evs) => some (r1.obj, some r1, evs)

/-- `OCI_RefAssign` (ref.c, lines 250-283): after NULL checks and the
`OCI_CHECK_COMPAT` type-compatibility guard, `OCIRefAssign` is invoked through
`OCI_CALL2`; on success any dependent object of the target is freed (without
touching its `hstate`), `ref->obj` is reset to NULL and the target takes over the
source's type information and `pinned` flag. -/
def OCI_RefAssign (assignOk : Bool) (ref refSrc : Option OCIRef) :
    Bool × Option OCIRef × List Event :=
  match ref, refSrc with
  | none, _ => (false, ref, [])
  | some r, none => (false, some r, [])
  | some r, some s =>
      if r.nty ≠ s.nty then (false, some r, [])
      else
        let evs := [Event.native .refAssign assignOk]
        if assignOk then
          let evs := evs ++ (match r.obj with
            | some o => [Event.objectFree o.hstate]
            | none => [])
          (true, some { r with handle := s.handle, obj := none,
                               nty := s.nty, pinned := s.pinned }, evs)
        else
          (false, some r, evs)

/-- `OCI_RefSetNull` (ref.c, lines 302-324): the ref is unpinned; when that
reported success the native ref value is cleared through `OCIRefClear` and any
remaining dependent object is freed. -/
def OCI_RefSetNull (unpinOk : Bool) : Option OCIRef → Option (Bool × Option OCIRef × List Event)
  | none => some (false, none, [])
  | some r =>
      match refUnpinCore unpinOk r with
      | none => none
      | some (res, r1, evs) =>
          if res then
            let evs := evs ++ [Event.refClear] ++ (match r1.obj with
              | some o => [Event.objectFree o.hstate]
              | none => [])
            some (true, some { r1 with obj := none }, evs)
          else
            some (false, some r1, evs)

/-- A memory write: update position `i` of byte memory `m`. -/
def wr (m : Nat → Nat) (i v : Nat) : Nat → Nat :=
  fun j => if j = i then v else m j

/-- Write the bytes `s` at the start of memory `m`, leaving all positions at or
beyond `s.length` untouched. -/
def wrBytes (m : Nat → Nat) (s : List Nat) : Nat → Nat :=
  fun j => if j < s.length then s.getD j 0 else m j

/-- `OCI_RefToText` (ref.c, lines 330-363) for an ANSI build, where the
metastring helpers are the identity on the caller's buffer (those helpers live in
`string.c`, not among these sources; modelled from the spec: in an ANSI build
`OCI_GetInputMetaString` returns the caller's buffer unchanged and the output /
release helpers are no-ops).  After the NULL checks, `str[0]` is set to 0, then
`OCIRefToHex` is invoked through `OCI_CALL2`: on success it writes the converted
text (parameter `hexOut`) into the buffer and updates the byte count, on failure
it leaves both untouched; finally a null terminator is written at the resulting
byte count (which on failure is still the caller-supplied `size`). -/
def OCI_RefToText (hexOut : Option (List Nat)) (size : Nat) (m : Nat → Nat) :
    Option OCIRef → Bool × (Nat → Nat) × List Event
  | none => (false, m, [])
  | some _ =>
      let m1 := wr m 0 0
      match hexOut with
      | some hex =>
          (true, wr (wrBytes m1 hex) hex.length 0, [Event.native .refToHex true])
      | none =>
          (false, wr m1 size 0, [Event.native .refToHex false])

/-- `OCI_RefGetHexSize` (ref.c, lines 369-382): NULL ref yields 0, otherwise the
native `OCIRefHexSize` value (in bytes, divided by the character size, which is 1
in an ANSI build). -/
def OCI_RefGetHexSize (hexSize : Nat) : Option OCIRef → Nat
  | none => 0
  | some _ => hexSize / 1

/-- `OCI_RefGetSchema` (ref.c, lines 388-395): NULL ref yields NULL, otherwise
`ref->nty`. -/
def OCI_RefGetSchema : Option OCIRef → Option Nat
  | none => none
  | some r => some r.nty

/-- `OCI_RefInit` (ref.c, lines 45-100) in the configuration used by
`OCI_RefCreate`: `*pref` is NULL so a zeroed structure is allocated, and the
`handle` argument is NULL so the ref is marked `OCI_OBJECT_ALLOCATED` and a fresh
native handle is requested from `OCI_ObjectNew` through `OCI_CALL2`.  On native
failure the half-built ref is torn down again through `OCI_RefFree` and NULL is
returned. -/
def OCI_RefInit (nty : Nat) (objectNewOk : Bool) (newHandle : Nat) :
    Option OCIRef × List Event :=
  let evs := [Event.alloc, Event.native .objectNew objectNewOk]
  if objectNewOk then
    (some { handle := newHandle, nty := nty, obj := none, pinned := false,
            hstate := HState.allocated }, evs)
  else
    (none, evs ++ [Event.ociObjectFree 0, Event.freeStruct])

/-- `OCI_RefCreate` (ref.c, lines 183-197).  `OCI_CHECK_INITIALIZED` comes from
`ocilib_checks.h`, not among these sources; modelled from the spec: every
creating entry point first checks the process-wide initialized flag and returns
NULL, before any allocation, when the library has not been initialized.  Then the
connection and schema pointers are checked and the ref is built by
`OCI_RefInit`. -/
def OCI_RefCreate (libInitialized : Bool) (objectNewOk : Bool) (newHandle : Nat)
    (con : Option Nat) (schema : Option Nat) : Option OCIRef × List Event :=
  if libInitialized = false then (none, [])
  else
    match con, schema with
    | some _, some s => OCI_RefInit s objectNewOk newHandle
    | _, _ => (none, [])

/-- Type information attached to a queue or message (`OCI_TypeInfo`): the type
descriptor object `tdo` and the type code (`OCI_UNKNOWN = 0` for RAW queues). -/
structure OCITypeInfo where
  tdo : Nat
  typecode : Nat
deriving DecidableEq

/-- The `OCI_Enqueue` structure: its type information, queue name and the native
enqueue-options descriptor handle `opth`. -/
structure OCIEnqueue where
  typinf : OCITypeInfo
  name : List Nat
  opth : Nat
deriving DecidableEq

/-- The `OCI_Msg` structure, reduced to what the enqueue functions consult: its
type information, the null indicator, the dependent object and the raw payload
pointer. -/
structure OCIMsg where
  typinf : OCITypeInfo
  indNull : Bool
  obj : Option OCIObject
  payload : Nat
deriving DecidableEq

/-- `OCI_EnqueueCreate` (ref.c, lines 449-493).  `OCI_CHECK_INITIALIZED` is
modelled from the spec as in `OCI_RefCreate`.  After the NULL checks the enqueue
structure is allocated; if that succeeds an enqueue-options descriptor is
allocated (outcome `descOk`), and on descriptor failure the half-built structure
is torn down through `OCI_EnqueueFree` and NULL is returned. -/
def OCI_EnqueueCreate (libInitialized : Bool) (allocOk descOk : Bool)
    (typinf : Option OCITypeInfo) (name : Option (List Nat)) :
    Option OCIEnqueue × List Event :=
  if libInitialized = false then (none, [])
  else
    match typinf, name with
    | some t, some n =>
        if allocOk then
          if descOk then (some { typinf := t, name := n, opth := 0 }, [Event.alloc])
          else (none, [Event.alloc, Event.freeStruct])
        else (none, [])
    | _, _ => (none, [])

/-- `OCI_EnqueuePut` (ref.c, lines 520-572): after the NULL checks and the
`OCI_CHECK_COMPAT` guard that both type descriptors agree, the message payload
and indicator are selected (object payload for typed queues with a non-null
message, raw payload otherwise) and `OCIAQEnq` is invoked through `OCI_CALL2`;
its boolean verdict is the result. -/
def OCI_EnqueuePut (enqOk : Bool) (enq : Option OCIEnqueue) (msg : Option OCIMsg) :
    Bool × List Event :=
  match enq, msg with
  | none, _ => (false, [])
  | some _, none => (false, [])
  | some e, some m =>
      if e.typinf.tdo ≠ m.typinf.tdo then (false, [])
      else (enqOk, [Event.native .aqEnq enqOk])

/-- Payload selection inside `OCI_EnqueuePut`: for a typed queue
(`typecode ≠ OCI_UNKNOWN`) a non-null message contributes its object's handle,
otherwise the raw payload is used.  Split out so the selection logic stays
visible even though it does not influence the function's result. -/
def enqueuePutPayload (e : OCIEnqueue) (m : OCIMsg) : Option Nat :=
  if e.typinf.typecode ≠ 0 then
    if m.indNull = false then (m.obj.map OCIObject.handle) else none
  else
    some m.payload

/-- The admissible visibility modes, `VisibilityModeValues` in ref.c
(`OCI_AMV_IMMEDIATE` and `OCI_AMV_ON_COMMIT` from `ocilib.h`, which is not among
these sources; their numeric values are immaterial, only membership in this list
is consulted by the `OCI_CHECK_ENUM_VALUE` guard). -/
def VisibilityModeValues : List Nat := [1, 2]

/-- `OCI_EnqueueSetVisibility` (ref.c, lines 609-637): after the NULL check, the
`OCI_CHECK_ENUM_VALUE` guard rejects a visibility outside
`VisibilityModeValues`; then `OCIAttrSet` is invoked through `OCI_CALL2` and its
verdict returned. -/
def OCI_EnqueueSetVisibility (attrSetOk : Bool) (visibility : Nat)
    (enq : Option OCIEnqueue) : Bool × List Event :=
  match enq with
  | none => (false, [])
  | some _ =>
      if visibility ∈ VisibilityModeValues then (attrSetOk, [Event.native .attrSet attrSetOk])
      else (false, [])

/-- `OCI_EnqueueGetRelativeMsgID` (ref.c, lines 708-753): after the NULL checks,
`OCIAttrGet` is invoked through `OCI_CALL2` to fetch the relative message id raw
value (`raw`; when the native call fails the local `value` stays NULL).  If a
value is present, `*len` is clamped to the raw value's size and exactly that many
bytes are copied into `id`; otherwise `*len` is set to 0 and `id` is untouched.
Returns (result, id memory after the call, `*len` after the call, events). -/
def OCI_EnqueueGetRelativeMsgID (attrGetOk : Bool) (raw : Option (List Nat))
    (lenIn : Nat) (idm : Nat → Nat) (enq : Option OCIEnqueue) :
    Bool × (Nat → Nat) × Nat × List Event :=
  match enq with
  | none => (false, idm, lenIn, [])
  | some _ =>
      let value : Option (List Nat) := if attrGetOk then raw else none
      let evs := [Event.native .attrGet attrGetOk]
      match value with
      | some v =>
          let lenOut := min lenIn v.length
          (attrGetOk, wrBytes idm (v.take lenOut), lenOut, evs)
      | none =>
          (attrGetOk, idm, 0, evs)

/-- `OCI_EnqueueSetRelativeMsgID` (ref.c, lines 759-794): two successive
`OCI_CALL2` invocations, `OCIRawAssignBytes` then `OCIAttrSet`; the second is
skipped when the first failed, and the result is the conjunction of both
verdicts. -/
def OCI_EnqueueSetRelativeMsgID (rawOk attrSetOk : Bool) (enq : Option OCIEnqueue) :
    Bool × List Event :=
  match enq with
  | none => (false, [])
  | some _ =>
      if rawOk then
        (attrSetOk, [Event.native .rawAssignBytes true, Event.native .attrSet attrSetOk])
      else
        (false, [Event.native .rawAssignBytes false])

/-!
## The C++ reference-counted proxy (spec model)

The `HandleHolder` / `SmartHandle` template implementing the share-counted proxy
of ocilib.hpp lives in `ocilib_core.hpp`, which is not among these sources; only
its contract is stated in `ocilib.hpp` (lines 83-87) and in the spec (§3, §4.1).
-/

/-- Modelled from the spec: the life of a proxy population over one shared
native handle.  `copy` is a copy construction from a live proxy (share counter
increments); `destroy` is the destruction of a live proxy (share counter
decrements, and the release callback for the native resource runs exactly when
the counter reaches zero). -/
inductive ProxyOp
  | copy
  | destroy
deriving DecidableEq

/-- Modelled from the spec: a proxy operation is only performable while a live
proxy exists, i.e. while the share counter `c` is positive. -/
def opsValid : Nat → List ProxyOp → Bool
  | _, [] => true
  | c, ProxyOp.copy :: rest => decide (0 < c) && opsValid (c + 1) rest
  | c, ProxyOp.destroy :: rest => decide (0 < c) && opsValid (c - 1) rest

/-- Share counter after running the operations from counter value `c`. -/
def countAfter : Nat → List ProxyOp → Nat
  | c, [] => c
  | c, ProxyOp.copy :: rest => countAfter (c + 1) rest
  | c, ProxyOp.destroy :: rest => countAfter (c - 1) rest

/-- Modelled from the spec: number of invocations of the handle's release
callback while running the operations from counter value `c` — a destruction
invokes it exactly when it drops the counter to zero. -/
def releaseCount : Nat → List ProxyOp → Nat
  | _, [] => 0
  | c, ProxyOp.copy :: rest => releaseCount (c + 1) rest
  | c, ProxyOp.destroy :: rest => (if c = 1 then 1 else 0) + releaseCount (c - 1) rest

/-!
## The C++ status/exception translator (spec model)

The `Check()` chokepoint and the `ocilib::Exception` implementation live in
`ocilib_impl.hpp`, which is not among these sources; `ocilib.hpp` carries the
class declaration (lines 272-385) and the exception-model contract (lines
90-93).
-/

/-- The error descriptor (`OCI_Error`) consulted by the translator after each C
API call: message text, Oracle error code, OCILIB error code, the statement and
connection involved, and the offending row for array DML errors (`none` when the
error is unrelated to array DML). -/
structure OCIErrorInfo where
  message : List Nat
  oracleCode : Int
  internalCode : Int
  stmt : Option Nat
  con : Option Nat
  arrayRow : Option Nat
deriving DecidableEq

/-- Modelled from the spec: the `ocilib::Exception` object thrown by the C++
layer, wrapping an `OCI_Error` descriptor; `whatText` is the buffer backing
`std::exception::what()`. -/
structure CppException where
  message : List Nat
  oracleCode : Int
  internalCode : Int
  stmt : Option Nat
  con : Option Nat
  arrayRow : Option Nat
  whatText : List Nat
deriving DecidableEq

/-- Modelled from the spec: building the exception from the error descriptor;
the `what()` buffer is filled with the same content as `GetMessage()`. -/
def Exception.ofError (e : OCIErrorInfo) : CppException :=
  { message := e.message, oracleCode := e.oracleCode, internalCode := e.internalCode,
    stmt := e.stmt, con := e.con, arrayRow := e.arrayRow, whatText := e.message }

/-- `Exception::GetMessage()`. -/
def CppException.GetMessage (x : CppException) : List Nat := x.message

/-- `Exception::GetOracleErrorCode()`. -/
def CppException.GetOracleErrorCode (x : CppException) : Int := x.oracleCode

/-- `Exception::GetInternalErrorCode()`. -/
def CppException.GetInternalErrorCode (x : CppException) : Int := x.internalCode

/-- `Exception::GetStatement()`. -/
def CppException.GetStatement (x : CppException) : Option Nat := x.stmt

/-- `Exception::GetConnection()`. -/
def CppException.GetConnection (x : CppException) : Option Nat := x.con

/-- `Exception::GetRow()`: 0 when the error is not related to array DML,
otherwise the offending row index. -/
def CppException.GetRow (x : CppException) : Nat := x.arrayRow.getD 0

/-- `Exception::what()`. -/
def CppException.whatOut (x : CppException) : List Nat := x.whatText

/-- Modelled from the spec: the translator chokepoint run after every OCILIB C
API call from the C++ layer — when the call left an error descriptor, a
structured `ocilib::Exception` built from it is thrown; otherwise control falls
through. -/
def checkTranslator (err : Option OCIErrorInfo) : Except CppException Unit :=
  match err with
  | some e => Except.error (Exception.ofError e)
  | none => Except.ok ()

/-!
## Helper lemmas
-/

/-- Structural facts about `OCI_RefUnpin`'s core: whenever it returns, the pin
flag is cleared, the dependent object slot is NULL, the ref's own handle state,
handle and type are untouched, and neither the native handle nor the wrapper
structure of the ref is freed. -/
theorem refUnpinCore_spec (unpinOk : Bool) (r : OCIRef) (res : Bool) (r1 : OCIRef)
    (evs : List Event) (h : refUnpinCore unpinOk r = some (res, r1, evs)) :
    r1.pinned = false ∧ r1.obj = none ∧ r1.hstate = r.hstate ∧ r1.handle = r.handle ∧
    r1.nty = r.nty ∧ (∀ n, Event.ociObjectFree n ∉ evs) ∧ Event.freeStruct ∉ evs ∧
    (r.obj.isSome = true → Event.objectFree HState.fetchedDirty ∈ evs) ∧
    (∀ st, Event.objectFree st ∈ evs → st = HState.fetchedDirty) := by
  rcases r with ⟨hd, nty, obj, pinned, hst⟩
  cases pinned <;> cases obj <;> simp only [refUnpinCore] at h
  · simp at h
    obtain ⟨rfl, rfl, rfl⟩ := h
    refine ⟨rfl, rfl, rfl, rfl, rfl, ?_, ?_, ?_, ?_⟩ <;> simp
  · simp at h
    obtain ⟨rfl, rfl, rfl⟩ := h
    refine ⟨rfl, rfl, rfl, rfl, rfl, ?_, ?_, ?_, ?_⟩ <;> simp
  · exact Option.noConfusion h
  · simp at h
    obtain ⟨rfl, rfl, rfl⟩ := h
    refine ⟨rfl, rfl, rfl, rfl, rfl, ?_, ?_, ?_, ?_⟩ <;> simp

/-- The trace of `refUnpinCore` contains a failed native call exactly when the
ref was pinned and the native unpin reported failure. -/
theorem refUnpinCore_failed_native (unpinOk : Bool) (r : OCIRef) (res : Bool) (r1 : OCIRef)
    (evs : List Event) (h : refUnpinCore unpinOk r = some (res, r1, evs)) :
    evs.all (fun ev => !ev.isFailedNative) = unpinOk || !r.pinned := by
  rcases r with ⟨hd, nty, obj, pinned, hst⟩
  cases pinned <;> cases obj <;> simp only [refUnpinCore] at h
  · simp at h
    obtain ⟨rfl, rfl, rfl⟩ := h
    simp [Event.isFailedNative]
  · simp at h
    obtain ⟨rfl, rfl, rfl⟩ := h
    simp [Event.isFailedNative]
  · exact Option.noConfusion h
  · simp at h
    obtain ⟨rfl, rfl, rfl⟩ := h
    cases unpinOk <;> simp [Event.isFailedNative]

/-!
## C2 — `OCI_RefFree` releases the native handle iff the ref was allocated
-/

/-- C2: for every non-NULL ref on which `OCI_RefFree` returns, the native object
handle is released through `OCI_OCIObjectFree` if and only if the ref's `hstate`
is `OCI_OBJECT_ALLOCATED`; for a ref in fetched-clean state the call returns
FALSE having freed neither the native handle nor the structure. -/
theorem refFree_releases_native_iff_allocated (unpinOk : Bool) (r : OCIRef) (b : Bool)
    (evs : List Event) (h : OCI_RefFree unpinOk (some r) = some (b, evs)) :
    (Event.ociObjectFree r.handle ∈ evs ↔ r.hstate = HState.allocated) ∧
    (r.hstate = HState.fetchedClean → b = false ∧ evs = []) := by
  simp only [OCI_RefFree] at h
  by_cases hclean : r.hstate = HState.fetchedClean
  · simp [hclean] at h
    obtain ⟨rfl, rfl⟩ := h
    refine ⟨?_, fun _ => ⟨rfl, rfl⟩⟩
    simp [hclean]
  · simp only [if_neg hclean] at h
    rcases hu : refUnpinCore unpinOk r with _ | ⟨res, r1, evs1⟩
    · rw [hu] at h; exact Option.noConfusion h
    · rw [hu] at h
      simp at h
      obtain ⟨-, -, hst, -, -, hnooci, -, -, -⟩ :=
        refUnpinCore_spec unpinOk r res r1 evs1 hu
      by_cases halloc : r.hstate = HState.allocated
      · rw [hst, if_pos halloc] at h
        obtain ⟨rfl, rfl⟩ := h
        refine ⟨?_, fun hc => absurd hc hclean⟩
        simp [halloc]
      · rw [hst, if_neg halloc] at h
        obtain ⟨rfl, rfl⟩ := h
        refine ⟨⟨?_, ?_⟩, fun hc => absurd hc hclean⟩
        · intro hmem
          rw [List.mem_append] at hmem
          rcases hmem with hmem | hmem
          · exact absurd hmem (hnooci r.handle)
          · simp at hmem
        · intro hc
          exact absurd hc halloc

/-!
## C3 — `OCI_RefUnpin` clears the pin and defers the dependent object's release
-/

/-- C3: after a returning `OCI_RefUnpin` on a non-NULL ref, `ref->pinned` is
FALSE and `ref->obj` is NULL; when a dependent object existed it was marked
`OCI_OBJECT_FETCHED_DIRTY` before being handed to `OCI_ObjectFree` (every
`OCI_ObjectFree` call in the trace sees the dirty state, so the native handle
release is deferred to the parent's teardown rather than performed there). -/
theorem refUnpin_clears_pin_and_defers_release (unpinOk : Bool) (r : OCIRef) (b : Bool)
    (out : Option OCIRef) (evs : List Event)
    (h : OCI_RefUnpin unpinOk (some r) = some (b, out, evs)) :
    ∃ r1, out = some r1 ∧ r1.pinned = false ∧ r1.obj = none ∧
      (r.obj.isSome = true → Event.objectFree HState.fetchedDirty ∈ evs) ∧
      (∀ st, Event.objectFree st ∈ evs → st = HState.fetchedDirty) := by
  simp only [OCI_RefUnpin] at h
  rcases hu : refUnpinCore unpinOk r with _ | ⟨res, r1, evs1⟩
  · rw [hu] at h; exact Option.noConfusion h
  · rw [hu] at h
    simp at h
    obtain ⟨hpin, hobj, -, -, -, -, -, hdep, hdirty⟩ :=
      refUnpinCore_spec unpinOk r res r1 evs1 hu
    exact ⟨r1, by rw [← h.2.1], hpin, hobj, by rw [← h.2.2]; exact hdep,
           by rw [← h.2.2]; exact hdirty⟩

/-- A concrete allocated ref used to instantiate the `OCI_RefFree` theorem. -/
def rFreeW : OCIRef := ⟨5, 0, none, false, HState.allocated⟩

/-- Witness for C2: freeing a concrete allocated ref does release the native
handle. -/
theorem refFree_releases_native_iff_allocated_witness :
    Event.ociObjectFree 5 ∈ [Event.ociObjectFree 5, Event.freeStruct] :=
  (refFree_releases_native_iff_allocated true rFreeW true
    [Event.ociObjectFree 5, Event.freeStruct] (by decide)).1.mpr (by decide)

/-- A concrete pinned ref with a dependent object, used to instantiate the
`OCI_RefUnpin` theorem. -/
def rUnpinW : OCIRef := ⟨3, 0, some ⟨7, HState.fetchedClean⟩, true, HState.fetchedClean⟩

/-- The state of `rUnpinW` after a successful unpin. -/
def rUnpinWOut : OCIRef := ⟨3, 0, none, false, HState.fetchedClean⟩

/-- Witness for C3: unpinning a concrete pinned ref hands its dependent object
to `OCI_ObjectFree` in the fetched-dirty state. -/
theorem refUnpin_clears_pin_witness :
    Event.objectFree HState.fetchedDirty ∈
      [Event.native NativeFn.objectUnpin true, Event.objectFree HState.fetchedDirty] := by
  obtain ⟨r1, -, -, -, h4, -⟩ :=
    refUnpin_clears_pin_and_defers_release true rUnpinW true (some rUnpinWOut)
      [Event.native NativeFn.objectUnpin true, Event.objectFree HState.fetchedDirty]
      (by decide)
  exact h4 (by decide)

/-!
## C4 — NULL ref arguments fail fast with the documented default results
-/

/-- C4: every public `OCI_Ref` entry point called with a NULL ref returns its
defensive default without touching any state: `OCI_RefFree`, `OCI_RefAssign`,
`OCI_RefSetNull` and `OCI_RefToText` return FALSE, `OCI_RefGetObject` and
`OCI_RefGetSchema` return NULL, `OCI_RefGetHexSize` returns 0 and
`OCI_RefIsNull` returns TRUE; no event (native call, free, allocation) occurs
and the text buffer is untouched. -/
theorem null_ref_entry_points_fail_fast (unpinOk pinOk assignOk isNullNative : Bool)
    (objInit : Option OCIObject) (src : Option OCIRef) (hexOut : Option (List Nat))
    (size hexSize : Nat) (m : Nat → Nat) :
    OCI_RefFree unpinOk none = some (false, []) ∧
    OCI_RefAssign assignOk none src = (false, none, []) ∧
    OCI_RefSetNull unpinOk none = some (false, none, []) ∧
    OCI_RefToText hexOut size m none = (false, m, []) ∧
    OCI_RefGetObject isNullNative unpinOk pinOk objInit none = some (none, none, []) ∧
    OCI_RefGetSchema none = none ∧
    OCI_RefGetHexSize hexSize none = 0 ∧
    OCI_RefIsNull isNullNative none = true :=
  ⟨rfl, rfl, rfl, rfl, rfl, rfl, rfl, rfl⟩

/-!
## C6 — creating entry points check the initialized flag first
-/

/-- C6: with the process-wide initialize call not yet made, `OCI_RefCreate` and
`OCI_EnqueueCreate` return NULL without allocating anything (their event trace is
empty). -/
theorem uninitialized_create_returns_null (objectNewOk allocOk descOk : Bool)
    (newHandle : Nat) (con schema : Option Nat) (typinf : Option OCITypeInfo)
    (qname : Option (List Nat)) :
    OCI_RefCreate false objectNewOk newHandle con schema = (none, []) ∧
    OCI_EnqueueCreate false allocOk descOk typinf qname = (none, []) :=
  ⟨rfl, rfl⟩

/-!
## C9 — `OCI_EnqueueGetRelativeMsgID` copies min(*len, raw size) bytes
-/

/-- C9: with non-NULL arguments and a successful native attribute fetch, when a
relative message id raw value `v` is present exactly `min lenIn v.length` bytes
of it are copied into the id buffer and `*len` is set to that count; when no
value is present `*len` is set to 0 and the id buffer is untouched. -/
theorem enqueueGetRelativeMsgID_copies_min (raw : Option (List Nat)) (lenIn : Nat)
    (idm : Nat → Nat) (e : OCIEnqueue) :
    (∀ v, raw = some v →
      (OCI_EnqueueGetRelativeMsgID true raw lenIn idm (some e)).2.2.1 = min lenIn v.length ∧
      (∀ j, j < min lenIn v.length →
        (OCI_EnqueueGetRelativeMsgID true raw lenIn idm (some e)).2.1 j = v.getD j 0) ∧
      (∀ j, min lenIn v.length ≤ j →
        (OCI_EnqueueGetRelativeMsgID true raw lenIn idm (some e)).2.1 j = idm j)) ∧
    (raw = none →
      (OCI_EnqueueGetRelativeMsgID true raw lenIn idm (some e)).2.2.1 = 0 ∧
      (OCI_EnqueueGetRelativeMsgID true raw lenIn idm (some e)).2.1 = idm) := by
  constructor
  · rintro v rfl
    have hlen : (v.take (min lenIn v.length)).length = min lenIn v.length := by
      simp [Nat.min_le_right lenIn v.length]
    refine ⟨rfl, ?_, ?_⟩
    · intro j hj
      show wrBytes idm (v.take (min lenIn v.length)) j = v.getD j 0
      unfold wrBytes
      rw [hlen, if_pos hj, List.getD_eq_getElem?_getD, List.getD_eq_getElem?_getD,
          List.getElem?_take]
      simp [hj]
    · intro j hj
      show wrBytes idm (v.take (min lenIn v.length)) j = idm j
      unfold wrBytes
      rw [hlen, if_neg (by omega)]
  · rintro rfl
    exact ⟨rfl, rfl⟩

/-- A concrete enqueue used to instantiate the enqueue-layer theorems. -/
def enqW : OCIEnqueue := ⟨⟨4, 1⟩, [113], 0⟩

/-- Witness for C9: fetching a 3-byte relative message id into a buffer with
`*len = 2` copies exactly the first 2 bytes and leaves the rest of the buffer
alone. -/
theorem enqueueGetRelativeMsgID_copies_min_witness :
    (OCI_EnqueueGetRelativeMsgID true (some [10, 20, 30]) 2 (fun _ => 9) (some enqW)).2.2.1 = 2 ∧
    (OCI_EnqueueGetRelativeMsgID true (some [10, 20, 30]) 2 (fun _ => 9) (some enqW)).2.1 1 = 20 ∧
    (OCI_EnqueueGetRelativeMsgID true (some [10, 20, 30]) 2 (fun _ => 9) (some enqW)).2.1 2 = 9 := by
  have h := (enqueueGetRelativeMsgID_copies_min (some [10, 20, 30]) 2 (fun _ => 9) enqW).1
    [10, 20, 30] rfl
  exact ⟨h.1, h.2.1 1 (by decide), h.2.2 2 (by decide)⟩

/-!
## C10 — `OCI_RefToText` always leaves a null-terminated buffer
-/

/-- C10: for a non-NULL ref and buffer, `OCI_RefToText` leaves a null-terminated
string regardless of the native call's outcome: on failure the call returns
FALSE and position 0 of the buffer holds the terminator (the empty string), and
on success the converted text occupies the first `hex.length` positions with the
terminator written right after it. -/
theorem refToText_output_null_terminated (size : Nat) (m : Nat → Nat) (r : OCIRef) :
    ((OCI_RefToText none size m (some r)).1 = false ∧
     (OCI_RefToText none size m (some r)).2.1 0 = 0) ∧
    (∀ hex : List Nat,
      (OCI_RefToText (some hex) size m (some r)).1 = true ∧
      (OCI_RefToText (some hex) size m (some r)).2.1 hex.length = 0 ∧
      ∀ j, j < hex.length → (OCI_RefToText (some hex) size m (some r)).2.1 j = hex.getD j 0) := by
  constructor
  · refine ⟨rfl, ?_⟩
    show wr (wr m 0 0) size 0 0 = 0
    unfold wr
    by_cases h0 : (0 : Nat) = size <;> simp [h0]
  · intro hex
    refine ⟨rfl, ?_, ?_⟩
    · show wr (wrBytes (wr m 0 0) hex) hex.length 0 hex.length = 0
      unfold wr
      simp
    · intro j hj
      show wr (wrBytes (wr m 0 0) hex) hex.length 0 j = hex.getD j 0
      unfold wr wrBytes
      rw [if_neg (by omega), if_pos hj]

/-- Witness for C10: converting into a concrete buffer with concrete hex output
`[72, 69]` yields TRUE, the two text bytes, and the terminator at position 2;
a failing conversion yields FALSE and the terminator at position 0. -/
theorem refToText_output_null_terminated_witness :
    (OCI_RefToText none 4 (fun _ => 7) (some rFreeW)).1 = false ∧
    (OCI_RefToText none 4 (fun _ => 7) (some rFreeW)).2.1 0 = 0 ∧
    (OCI_RefToText (some [72, 69]) 4 (fun _ => 7) (some rFreeW)).2.1 2 = 0 ∧
    (OCI_RefToText (some [72, 69]) 4 (fun _ => 7) (some rFreeW)).2.1 1 = 69 := by
  have h := refToText_output_null_terminated 4 (fun _ => 7) rFreeW
  exact ⟨h.1.1, h.1.2, (h.2 [72, 69]).2.1, (h.2 [72, 69]).2.2 1 (by decide)⟩

/-!
## C5 — boolean result of the translator-wrapped operations
-/

/-- A pinned ref with a dependent object: entering `OCI_RefPin` on it runs the
nested unpin, whose native call goes through the translator. -/
def rPinnedW : OCIRef := ⟨4, 1, some ⟨9, HState.fetchedClean⟩, true, HState.fetchedClean⟩

/-- The dependent object produced by the successful pin in the counterexample. -/
def objW : OCIObject := ⟨11, HState.fetchedClean⟩

/-- Counterexample to C5 as stated: on a pinned ref whose nested unpin's native
`OCIObjectUnpin` call fails while the pin itself and the object initialisation
succeed, `OCI_RefPin` returns TRUE although a native call invoked through the
translator during the operation reported failure — the unpin verdict is
discarded. -/
theorem refPin_true_despite_failed_native_call :
    (refPinCore false true (some objW) rPinnedW).map
      (fun x => (x.1, x.2.2.any Event.isFailedNative)) = some (true, true) := by decide

/-- C5 (amended): each operation's boolean result reflects exactly the native
calls whose verdicts it consumes: `OCI_RefAssign`, `OCI_RefToText`,
`OCI_EnqueuePut`, `OCI_EnqueueSetVisibility` and `OCI_EnqueueSetRelativeMsgID`
return TRUE iff every native call in their trace reported success (given valid
arguments), while `OCI_RefPin` returns TRUE iff its own pin call and the
dependent-object initialisation succeeded — the verdict of the nested unpin
performed at entry is discarded. -/
theorem translator_boolean_result_amended (unpinOk pinOk assignOk attrSetOk rawOk enqOk : Bool)
    (objInit : Option OCIObject) (hexOut : Option (List Nat)) :
    (∀ r res r1 evs, refPinCore unpinOk pinOk objInit r = some (res, r1, evs) →
      (res = true ↔ pinOk = true ∧ objInit.isSome = true)) ∧
    (∀ r s : OCIRef, r.nty = s.nty →
      ((OCI_RefAssign assignOk (some r) (some s)).1 = true ↔
        (OCI_RefAssign assignOk (some r) (some s)).2.2.all
          (fun ev => !ev.isFailedNative) = true)) ∧
    (∀ size m (r : OCIRef),
      ((OCI_RefToText hexOut size m (some r)).1 = true ↔
        (OCI_RefToText hexOut size m (some r)).2.2.all
          (fun ev => !ev.isFailedNative) = true)) ∧
    (∀ e msg, e.typinf.tdo = msg.typinf.tdo →
      ((OCI_EnqueuePut enqOk (some e) (some msg)).1 = true ↔
        (OCI_EnqueuePut enqOk (some e) (some msg)).2.all
          (fun ev => !ev.isFailedNative) = true)) ∧
    (∀ vis e, vis ∈ VisibilityModeValues →
      ((OCI_EnqueueSetVisibility attrSetOk vis (some e)).1 = true ↔
        (OCI_EnqueueSetVisibility attrSetOk vis (some e)).2.all
          (fun ev => !ev.isFailedNative) = true)) ∧
    (∀ e, (OCI_EnqueueSetRelativeMsgID rawOk attrSetOk (some e)).1 = true ↔
        (OCI_EnqueueSetRelativeMsgID rawOk attrSetOk (some e)).2.all
          (fun ev => !ev.isFailedNative) = true) := by
  refine ⟨?_, ?_, ?_, ?_, ?_, ?_⟩
  · intro r res r1 evs h
    simp only [refPinCore] at h
    rcases hu : refUnpinCore unpinOk r with _ | ⟨res0, r2, evs0⟩ <;> rw [hu] at h
    · exact Option.noConfusion h
    · cases pinOk
      · simp at h
        obtain ⟨rfl, -, -⟩ := h
        simp
      · cases objInit with
        | none =>
            simp [objectInitOutcome] at h
            obtain ⟨rfl, -, -⟩ := h
            simp
        | some o =>
            simp [objectInitOutcome] at h
            obtain ⟨rfl, -, -⟩ := h
            simp
  · intro r s hnty
    rcases hobj : r.obj with _ | o <;>
      cases assignOk <;>
        simp [OCI_RefAssign, hnty, hobj, Event.isFailedNative]
  · intro size m r
    cases hexOut <;> simp [OCI_RefToText, Event.isFailedNative]
  · intro e msg h
    cases enqOk <;> simp [OCI_EnqueuePut, h, Event.isFailedNative]
  · intro vis e hv
    cases attrSetOk <;> simp [OCI_EnqueueSetVisibility, hv, Event.isFailedNative]
  · intro e
    cases rawOk <;> cases attrSetOk <;>
      simp [OCI_EnqueueSetRelativeMsgID, Event.isFailedNative]

/-- A concrete message compatible with `enqW` (same type descriptor). -/
def msgW : OCIMsg := ⟨⟨4, 1⟩, false, none, 0⟩

/-- Witness for the amended C5: a concrete successful enqueue returns TRUE. -/
theorem translator_boolean_result_amended_witness :
    (OCI_EnqueuePut true (some enqW) (some msgW)).1 = true := by
  have h := (translator_boolean_result_amended true true true true true true none
    none).2.2.2.1 enqW msgW rfl
  exact h.mpr (by decide)

/-!
## C8 — the pinned-implies-object invariant
-/

/-- The invariant needed for `OCI_RefUnpin`'s dereference of
`ref->obj->handle` under the pinned flag to be safe: a pinned ref has a
dependent object. -/
def pinnedImpliesObj (r : OCIRef) : Bool := !r.pinned || r.obj.isSome

/-- Target of the counterexample assignment: an unpinned allocated ref. -/
def rAssignDst : OCIRef := ⟨1, 5, none, false, HState.allocated⟩

/-- Source of the counterexample assignment: a pinned ref with a dependent
object, of the same type as the target. -/
def rAssignSrc : OCIRef := ⟨2, 5, some ⟨7, HState.fetchedClean⟩, true, HState.fetchedClean⟩

/-- Counterexample to C8 as stated: both refs satisfy the invariant, yet after a
successful `OCI_RefAssign` from the pinned source the target has `pinned = TRUE`
with `obj = NULL` — and a subsequent `OCI_RefUnpin` on it hits the NULL
dereference of `ref->obj` (embedded as `none`). -/
theorem refAssign_breaks_pinned_invariant :
    pinnedImpliesObj rAssignDst = true ∧ pinnedImpliesObj rAssignSrc = true ∧
    (OCI_RefAssign true (some rAssignDst) (some rAssignSrc)).2.1.map pinnedImpliesObj
      = some false ∧
    (OCI_RefAssign true (some rAssignDst) (some rAssignSrc)).2.1.map
      (refUnpinCore true) = some none := by decide

/-- C8 (amended): `OCI_RefPin`, `OCI_RefUnpin`, `OCI_RefSetNull` and
`OCI_RefGetObject` preserve the pinned-implies-object invariant on every ref
they return; `OCI_RefAssign` preserves it only when the source ref is unpinned
(with a pinned source it produces `pinned = TRUE` with `obj = NULL`, as the
counterexample shows). -/
theorem ref_ops_preserve_pinned_invariant (unpinOk pinOk isNullNative assignOk : Bool)
    (objInit : Option OCIObject) :
    (∀ r out, pinnedImpliesObj r = true → refUnpinCore unpinOk r = some out →
      pinnedImpliesObj out.2.1 = true) ∧
    (∀ r out, pinnedImpliesObj r = true → refPinCore unpinOk pinOk objInit r = some out →
      pinnedImpliesObj out.2.1 = true) ∧
    (∀ r out r1, pinnedImpliesObj r = true → OCI_RefSetNull unpinOk (some r) = some out →
      out.2.1 = some r1 → pinnedImpliesObj r1 = true) ∧
    (∀ r out r1, pinnedImpliesObj r = true →
      OCI_RefGetObject isNullNative unpinOk pinOk objInit (some r) = some out →
      out.2.1 = some r1 → pinnedImpliesObj r1 = true) ∧
    (∀ r s r1, pinnedImpliesObj r = true → s.pinned = false →
      (OCI_RefAssign assignOk (some r) (some s)).2.1 = some r1 →
      pinnedImpliesObj r1 = true) := by
  have hunpin : ∀ r out, refUnpinCore unpinOk r = some out →
      pinnedImpliesObj out.2.1 = true := by
    intro r out h
    rcases out with ⟨res, r1, evs⟩
    obtain ⟨hpf, -, -⟩ := refUnpinCore_spec unpinOk r res r1 evs h
    simp [pinnedImpliesObj, hpf]
  have hpin : ∀ r out, refPinCore unpinOk pinOk objInit r = some out →
      pinnedImpliesObj out.2.1 = true := by
    intro r out h
    simp only [refPinCore] at h
    rcases hu : refUnpinCore unpinOk r with _ | ⟨res0, r2, evs0⟩ <;> rw [hu] at h
    · exact Option.noConfusion h
    · obtain ⟨hp2, -, -⟩ := refUnpinCore_spec unpinOk r res0 r2 evs0 hu
      cases pinOk
      · simp at h
        subst h
        simp [pinnedImpliesObj, hp2]
      · cases hini : objInit with
        | none =>
            simp [objectInitOutcome, hini] at h
            subst h
            simp [pinnedImpliesObj, hp2]
        | some o =>
            simp [objectInitOutcome, hini] at h
            subst h
            simp [pinnedImpliesObj]
  refine ⟨fun r out _ h => hunpin r out h, fun r out _ h => hpin r out h, ?_, ?_, ?_⟩
  · intro r out r1 _ h hout
    simp only [OCI_RefSetNull] at h
    rcases hu : refUnpinCore unpinOk r with _ | ⟨res0, r2, evs0⟩ <;> rw [hu] at h
    · exact Option.noConfusion h
    · obtain ⟨hp2, -, -⟩ := refUnpinCore_spec unpinOk r res0 r2 evs0 hu
      cases res0 <;> simp at h <;> subst h <;> simp at hout <;> subst hout <;>
        simp [pinnedImpliesObj, hp2]
  · intro r out r1 hinv h hout
    simp only [OCI_RefGetObject] at h
    by_cases hn : OCI_RefIsNull isNullNative (some r) <;> simp [hn] at h
    · subst h
      simp at hout
      subst hout
      exact hinv
    · rcases hp : refPinCore unpinOk pinOk objInit r with _ | ⟨res0, r2, evs0⟩ <;>
        rw [hp] at h
      · exact Option.noConfusion h
      · have hinv2 := hpin r (res0, r2, evs0) hp
        simp at h
        subst h
        simp at hout
        subst hout
        exact hinv2
  · intro r s r1 hinv hs h
    simp only [OCI_RefAssign] at h
    by_cases hnty : r.nty ≠ s.nty
    · rw [if_pos hnty] at h
      simp at h
      subst h
      exact hinv
    · rw [if_neg hnty] at h
      cases assignOk
      · simp at h
        subst h
        exact hinv
      · simp at h
        subst h
        simp [pinnedImpliesObj, hs]

/-- Witness for the amended C8: the concrete unpin of `rUnpinW` lands in a state
satisfying the invariant. -/
theorem ref_ops_preserve_pinned_invariant_witness :
    pinnedImpliesObj rUnpinWOut = true :=
  (ref_ops_preserve_pinned_invariant true true true true none).1 rUnpinW
    (true, rUnpinWOut,
      [Event.native NativeFn.objectUnpin true, Event.objectFree HState.fetchedDirty])
    (by decide) (by decide)

/-!
## C1 — the proxy share counter releases the handle exactly once
-/

/-- Auxiliary: no proxy operation can be performed once the share counter is
zero (there is no live proxy left to copy or destroy). -/
theorem opsValid_zero (ops : List ProxyOp) (h : opsValid 0 ops = true) : ops = [] := by
  cases ops with
  | nil => rfl
  | cons op rest => cases op <;> simp [opsValid] at h

/-- The release callback runs exactly when the operation sequence ends with the
share counter at zero. -/
theorem releaseCount_characterization (ops : List ProxyOp) : ∀ c, 0 < c →
    opsValid c ops = true →
    releaseCount c ops = if countAfter c ops = 0 then 1 else 0 := by
  induction ops with
  | nil =>
      intro c hc _
      simp [releaseCount, countAfter, Nat.pos_iff_ne_zero.mp hc]
  | cons op rest ih =>
      intro c hc hv
      cases op with
      | copy =>
          simp only [opsValid, Bool.and_eq_true, decide_eq_true_eq] at hv
          simp only [releaseCount, countAfter]
          exact ih (c + 1) (Nat.succ_pos c) hv.2
      | destroy =>
          simp only [opsValid, Bool.and_eq_true, decide_eq_true_eq] at hv
          by_cases h1 : c = 1
          · subst h1
            have hrest : rest = [] := opsValid_zero rest hv.2
            subst hrest
            simp [releaseCount, countAfter]
          · have hc2 : 0 < c - 1 := by omega
            simp only [releaseCount, countAfter, if_neg h1, Nat.zero_add]
            rw [ih (c - 1) hc2 hv.2]

/-- C1: starting from a single proxy owning the shared handle, every valid
sequence of proxy copies and destructions invokes the release callback at most
once; it invokes it exactly once when every referencing proxy has been destroyed
(the share counter reaches zero exactly once, at the destruction of the last
referencing proxy) and never while a referencing proxy is still alive. -/
theorem proxy_release_exactly_once (ops : List ProxyOp) (h : opsValid 1 ops = true) :
    releaseCount 1 ops ≤ 1 ∧
    (countAfter 1 ops = 0 → releaseCount 1 ops = 1) ∧
    (0 < countAfter 1 ops → releaseCount 1 ops = 0) := by
  have hch := releaseCount_characterization ops 1 Nat.one_pos h
  refine ⟨?_, ?_, ?_⟩
  · rw [hch]
    split <;> simp
  · intro h0
    rw [hch, if_pos h0]
  · intro h0
    rw [hch, if_neg (by omega)]

/-- Witness for C1: copy the proxy once, destroy both copies — exactly one
release. -/
theorem proxy_release_exactly_once_witness :
    releaseCount 1 [ProxyOp.copy, ProxyOp.destroy, ProxyOp.destroy] = 1 :=
  (proxy_release_exactly_once [ProxyOp.copy, ProxyOp.destroy, ProxyOp.destroy]
      (by decide)).2.1 (by decide)

/-!
## C7 — failures surface as structured exceptions
-/

/-- C7: a failing OCILIB C API call (error descriptor present) surfaces through
the translator as a thrown structured exception whose accessors expose the
message text, the Oracle error code, the OCILIB error code, the statement and
connection involved, and the offending row index (0 when the error is unrelated
to array DML), and whose `what()` buffer carries the same content as
`GetMessage()`; with no error descriptor the translator falls through. -/
theorem check_throws_structured_exception (e : OCIErrorInfo) :
    checkTranslator (some e) = Except.error (Exception.ofError e) ∧
    (Exception.ofError e).GetMessage = e.message ∧
    (Exception.ofError e).GetOracleErrorCode = e.oracleCode ∧
    (Exception.ofError e).GetInternalErrorCode = e.internalCode ∧
    (Exception.ofError e).GetStatement = e.stmt ∧
    (Exception.ofError e).GetConnection = e.con ∧
    (Exception.ofError e).whatOut = (Exception.ofError e).GetMessage ∧
    (Exception.ofError e).GetRow = e.arrayRow.getD 0 ∧
    (e.arrayRow = none → (Exception.ofError e).GetRow = 0) ∧
    checkTranslator none = Except.ok () := by
  refine ⟨rfl, rfl, rfl, rfl, rfl, rfl, rfl, rfl, ?_, rfl⟩
  intro h
  simp [CppException.GetRow, Exception.ofError, h]

/-- A concrete error descriptor not related to array DML. -/
def errW : OCIErrorInfo := ⟨[79, 82, 65], -1, 2, some 3, some 4, none⟩

/-- Witness for C7: the exception built from a non-array-DML error reports row
0. -/
theorem check_throws_structured_exception_witness :
    (Exception.ofError errW).GetRow = 0 :=
  (check_throws_structured_exception errW).2.2.2.2.2.2.2.2.1 rfl

end Ocilib
